import Mathlib

/-!
Verification of the ercx-api-wrapper client library.

The development shallowly embeds the two source modules:

* `api.py`: the closed enumerations `Network`, `TestLevel`, `Permission`
  with their `from_str` parsers and `__str__` serializers, and the strict
  record decoder `TokenInfo.from_dict`.
* `client.py`: `RestClient._send_request`, the dispatcher that builds one
  authenticated HTTP request from a method, endpoint, optional body and
  optional query parameters, hands it to the transport, and classifies the
  response by status code and JSON-decoding outcome.

Python dictionaries are embedded as association lists looked up on the
first matching key; Python string lowercasing is embedded as ASCII
lowercasing (`lowerString`), which agrees with `str.lower` on all inputs
appearing in the source; Python truthiness of an optional dictionary
(`if data:`) is embedded as `dataTruthy`.  The HTTP transport is a
parameter mapping a built request to either a transport failure or a
response; a response carries its status code and the outcome of parsing
its body as JSON.  The dispatcher returns, next to its result, the list
of requests actually handed to the transport, so that claims about
"no network call" and about what is on the wire are statable.
Exceptions raised by the Python code are embedded as `Except` errors
whose constructors record exactly the data the raised message carries.
-/

/-- Model of Python `str.lower` on one ASCII character. -/
def lowerChar (c : Char) : Char :=
  if 'A' ≤ c ∧ c ≤ 'Z' then Char.ofNat (c.toNat + 32) else c

/-- Model of Python `str.lower` (ASCII range, which covers every literal
the source compares against). -/
def lowerString (s : String) : String :=
  ⟨s.data.map lowerChar⟩

/-- Errors raised by the domain layer in `api.py`: `ValueError` on an
unrecognized enumeration input, `KeyError` on a missing dictionary key. -/
inductive ApiError where
  | invalidArgument (input : String)
  | missingField (field : String)
deriving DecidableEq

/-- The `Network` enumeration of `api.py`. -/
inductive Network where
  | GOERLI
  | SEPOLIA
  | MAINNET
deriving DecidableEq

/-- Numeric enumeration value of each `Network` member. -/
def Network.value : Network → Nat
  | .GOERLI => 5
  | .SEPOLIA => 11155111
  | .MAINNET => 1

/-- `Network.from_str` from `api.py`: each member is accepted either by a
case-insensitive symbolic name or by the exact decimal id string. -/
def Network.from_str (network : String) : Except ApiError Network :=
  if lowerString network = "goerli" ∨ network = "5" then .ok .GOERLI
  else if lowerString network = "sepolia" ∨ network = "11155111" then .ok .SEPOLIA
  else if lowerString network = "mainnet" ∨ network = "1" then .ok .MAINNET
  else .error (.invalidArgument network)

/-- `Network.__str__`: the decimal string of the numeric value. -/
def Network.toStr (n : Network) : String :=
  toString n.value

/-- The `TestLevel` enumeration of `api.py`. -/
inductive TestLevel where
  | ABI
  | MINIMAL
  | RECOMMENDED
  | DESIRABLE
  | ADDON
  | FINGERPRINT
  | ALL
deriving DecidableEq

/-- String enumeration value of each `TestLevel` member. -/
def TestLevel.value : TestLevel → String
  | .ABI => "abi"
  | .MINIMAL => "minimal"
  | .RECOMMENDED => "recommended"
  | .DESIRABLE => "desirable"
  | .ADDON => "addon"
  | .FINGERPRINT => "fingerprint"
  | .ALL => "all"

/-- `TestLevel.from_str` from `api.py`: `TestLevel(level.lower())`, the
enum lookup by value over the members in declaration order; the raised
`ValueError` names the lowered input. -/
def TestLevel.from_str (level : String) : Except ApiError TestLevel :=
  if lowerString level = "abi" then .ok .ABI
  else if lowerString level = "minimal" then .ok .MINIMAL
  else if lowerString level = "recommended" then .ok .RECOMMENDED
  else if lowerString level = "desirable" then .ok .DESIRABLE
  else if lowerString level = "addon" then .ok .ADDON
  else if lowerString level = "fingerprint" then .ok .FINGERPRINT
  else if lowerString level = "all" then .ok .ALL
  else .error (.invalidArgument (lowerString level))

/-- `TestLevel.__str__`: the string value itself. -/
def TestLevel.toStr (l : TestLevel) : String :=
  l.value

/-- The `Permission` enumeration of `api.py`. -/
inductive Permission where
  | READ
  | WRITE
  | ADMIN
deriving DecidableEq

/-- String enumeration value of each `Permission` member. -/
def Permission.value : Permission → String
  | .READ => "READ"
  | .WRITE => "WRITE"
  | .ADMIN => "ADMIN"

/-- `Permission.from_str` from `api.py`: `Permission(permission)`, the
exact enum lookup by value with no case folding. -/
def Permission.from_str (permission : String) : Except ApiError Permission :=
  if permission = "READ" then .ok .READ
  else if permission = "WRITE" then .ok .WRITE
  else if permission = "ADMIN" then .ok .ADMIN
  else .error (.invalidArgument permission)

/-- `Permission.__str__`: the string value itself. -/
def Permission.toStr (p : Permission) : String :=
  p.value

/-- The immutable `TokenInfo` record of `api.py`. -/
structure TokenInfo where
  id : String
  name : String
  address : String
  symbol : String
  decimals : String
  total_supply : String
  network : String
deriving DecidableEq

/-- The `required_attributes` list of `TokenInfo.from_dict`, in source
order. -/
def requiredAttributes : List String :=
  ["id", "name", "address", "symbol", "decimals", "totalSupply", "network"]

/-- Lookup in a Python dictionary embedded as an association list. -/
def dictLookup (d : List (String × String)) (key : String) : Option String :=
  match d with
  | [] => none
  | (k, v) :: rest => if k = key then some v else dictLookup rest key

/-- The checking loop of `TokenInfo.from_dict`: the first attribute of the
list that is not a key of the dictionary, if any. -/
def firstMissingAttr (attrs : List String) (d : List (String × String)) : Option String :=
  match attrs with
  | [] => none
  | a :: rest => if (dictLookup d a).isNone then some a else firstMissingAttr rest d

/-- Python dictionary subscription `d[key]`, raising `KeyError(key)` when
the key is absent. -/
def getItem (d : List (String × String)) (key : String) : Except ApiError String :=
  match dictLookup d key with
  | some v => .ok v
  | none => .error (.missingField key)

/-- `TokenInfo.from_dict` from `api.py`: scan `required_attributes` in
order and raise on the first absent key, then build the record from the
seven subscriptions. -/
def TokenInfo.from_dict (data_dict : List (String × String)) : Except ApiError TokenInfo :=
  match firstMissingAttr requiredAttributes data_dict with
  | some missing => .error (.missingField missing)
  | none => do
    let i ← getItem data_dict "id"
    let n ← getItem data_dict "name"
    let ad ← getItem data_dict "address"
    let sy ← getItem data_dict "symbol"
    let de ← getItem data_dict "decimals"
    let ts ← getItem data_dict "totalSupply"
    let ne ← getItem data_dict "network"
    return ⟨i, n, ad, sy, de, ts, ne⟩

/-- JSON values, for request bodies and response payloads. -/
inductive Json where
  | null
  | bool (b : Bool)
  | num (n : Int)
  | str (s : String)
  | arr (elems : List Json)
  | obj (fields : List (String × Json))

/-- One HTTP request as built by `RestClient._send_request`: full URL,
header list, optional query parameters, optional JSON body. -/
structure HttpRequest where
  url : String
  headers : List (String × String)
  params : Option (List (String × String))
  body : Option (List (String × Json))

/-- One HTTP response as seen by `RestClient._send_request`: the status
code and the outcome of `response.json()`, which either yields the parsed
payload or raises a JSON decoding error. -/
structure HttpResponse where
  status_code : Nat
  jsonBody : Except String Json

/-- The HTTP transport (the `requests` library): a built request either
raises a `RequestException` with some cause or produces a response. -/
abbrev Transport := HttpRequest → Except String HttpResponse

/-- Errors raised by `RestClient._send_request`, one constructor per
distinguishable raise site, each carrying the data its message carries. -/
inductive RequestError where
  | unsupportedMethod (method : String)
  | transportError (cause : String)
  | httpError (statusCode : Nat)
  | decodeError (cause : String)
deriving DecidableEq

/-- The `RestClient` configuration: base URL and API key. -/
structure RestClient where
  api_url : String
  api_key : String
deriving DecidableEq

/-- Response handling shared by every sent request in
`RestClient._send_request`: a transport failure is re-raised as a request
error; a status code outside 200/201 raises without the body being
parsed; otherwise the JSON parsing outcome of the body decides between
the payload and a decode error.  The request handed to the transport is
returned alongside, as the one-element trace of network activity. -/
def handleResponse (transport : Transport) (req : HttpRequest) :
    Except RequestError Json × List HttpRequest :=
  match transport req with
  | .error cause => (.error (.transportError cause), [req])
  | .ok response =>
    if response.status_code ∈ ([200, 201] : List Nat) then
      match response.jsonBody with
      | .ok payload => (.ok payload, [req])
      | .error cause => (.error (.decodeError cause), [req])
    else
      (.error (.httpError response.status_code), [req])

/-- Python truthiness of the optional `data` dictionary (`if data:`):
`None` and the empty dictionary are falsy. -/
def dataTruthy : Option (List (String × Json)) → Bool
  | none => false
  | some fields => !fields.isEmpty

/-- `RestClient._send_request` from `client.py`.  The result pairs the
classified outcome with the list of requests handed to the transport
(empty exactly when no network activity happened). -/
def RestClient.send_request (client : RestClient) (transport : Transport)
    (method : String) (end_point : String)
    (data : Option (List (String × Json)))
    (parameters : Option (List (String × String))) :
    Except RequestError Json × List HttpRequest :=
  let headers := [("X-API-KEY", client.api_key)]
  let url := client.api_url ++ end_point
  if method = "GET" then
    handleResponse transport ⟨url, headers, parameters, none⟩
  else if method = "POST" then
    if dataTruthy data then
      handleResponse transport ⟨url, headers, none, data⟩
    else
      handleResponse transport ⟨url, headers, none, none⟩
  else if method = "DELETE" then
    if dataTruthy data then
      handleResponse transport ⟨url, headers, none, data⟩
    else
      handleResponse transport ⟨url, headers, none, none⟩
  else
    (.error (.unsupportedMethod method), [])

/-- `RestClient.get_data`. -/
def RestClient.get_data (client : RestClient) (transport : Transport)
    (end_point : String) (parameters : Option (List (String × String))) :
    Except RequestError Json × List HttpRequest :=
  client.send_request transport "GET" end_point none parameters

/-- `RestClient.post_data`. -/
def RestClient.post_data (client : RestClient) (transport : Transport)
    (end_point : String) (data : Option (List (String × Json))) :
    Except RequestError Json × List HttpRequest :=
  client.send_request transport "POST" end_point data none

/-- `RestClient.delete_data`. -/
def RestClient.delete_data (client : RestClient) (transport : Transport)
    (end_point : String) (data : Option (List (String × Json))) :
    Except RequestError Json × List HttpRequest :=
  client.send_request transport "DELETE" end_point data none

/-- A transport that always answers with status 200 and payload `null`,
used for concrete instantiations. -/
def okTransport : Transport :=
  fun _ => .ok ⟨200, .ok .null⟩

deriving instance DecidableEq for Except

/-! Helper lemmas shared by the claims below. -/

/-- The three acceptance conditions of `Network.from_str` are pairwise
exclusive: no input string matches two members at once. -/
theorem network_conds_disjoint (s : String) :
    (¬((lowerString s = "goerli" ∨ s = "5") ∧ (lowerString s = "sepolia" ∨ s = "11155111"))) ∧
    (¬((lowerString s = "goerli" ∨ s = "5") ∧ (lowerString s = "mainnet" ∨ s = "1"))) ∧
    (¬((lowerString s = "sepolia" ∨ s = "11155111") ∧ (lowerString s = "mainnet" ∨ s = "1"))) := by
  refine ⟨?_, ?_, ?_⟩ <;>
    (rintro ⟨h | h, g | g⟩ <;>
      first
        | exact absurd (h.symm.trans g) (by decide)
        | (subst h; exact absurd g (by decide))
        | (subst g; exact absurd h (by decide)))

/-- Whatever the transport answers, handling a response hands exactly the
given request to the transport. -/
theorem handleResponse_snd (transport : Transport) (req : HttpRequest) :
    (handleResponse transport req).snd = [req] := by
  unfold handleResponse
  split
  · rfl
  · split
    · split <;> rfl
    · rfl

/-- Outcome classification of `handleResponse` against a transport that
answers every request with the fixed response `resp`. -/
theorem handleResponse_ok_fst (resp : HttpResponse) (req : HttpRequest) :
    ((resp.status_code ≠ 200 ∧ resp.status_code ≠ 201) →
      (handleResponse (fun _ => .ok resp) req).fst = .error (.httpError resp.status_code)) ∧
    (∀ payload, (resp.status_code = 200 ∨ resp.status_code = 201) →
      resp.jsonBody = .ok payload →
      (handleResponse (fun _ => .ok resp) req).fst = .ok payload) ∧
    (∀ cause, (resp.status_code = 200 ∨ resp.status_code = 201) →
      resp.jsonBody = .error cause →
      (handleResponse (fun _ => .ok resp) req).fst = .error (.decodeError cause)) := by
  refine ⟨?_, ?_, ?_⟩
  · intro hne
    simp [handleResponse, hne.1, hne.2]
  · intro payload hs hj
    rcases hs with h | h <;> simp [handleResponse, hj, h]
  · intro cause hs hj
    rcases hs with h | h <;> simp [handleResponse, hj, h]

/-- Scanning the attribute list finds the first attribute missing from the
dictionary: all attributes before it present, itself absent. -/
theorem firstMissingAttr_append (d : List (String × String)) (pre : List String) (k : String)
    (post : List String) (hpre : ∀ a ∈ pre, (dictLookup d a).isSome)
    (hk : dictLookup d k = none) :
    firstMissingAttr (pre ++ k :: post) d = some k := by
  induction pre with
  | nil => simp [firstMissingAttr, hk]
  | cons a pre ih =>
    have ha := hpre a (List.mem_cons_self a pre)
    rcases hda : dictLookup d a with _ | v
    · rw [hda] at ha
      simp at ha
    · simp only [List.cons_append, firstMissingAttr, hda, Option.isNone_some,
        Bool.false_eq_true, if_false]
      exact ih (fun b hb => hpre b (List.mem_cons_of_mem a hb))

/-! Claim theorems. -/

/-- C4: `Network.from_str` returns the canonical member for every string
that case-insensitively matches a symbolic name or exactly matches the
decimal id, fails with `InvalidArgument` listing the input on every other
string, and in particular maps "Mainnet" and "1" to MAINNET and rejects
"7". -/
theorem network_parse_spec (s : String) :
    (Network.from_str s = .ok .GOERLI ↔ lowerString s = "goerli" ∨ s = "5") ∧
    (Network.from_str s = .ok .SEPOLIA ↔ lowerString s = "sepolia" ∨ s = "11155111") ∧
    (Network.from_str s = .ok .MAINNET ↔ lowerString s = "mainnet" ∨ s = "1") ∧
    (Network.from_str s = .error (.invalidArgument s) ↔
      ¬(lowerString s = "goerli" ∨ s = "5") ∧ ¬(lowerString s = "sepolia" ∨ s = "11155111") ∧
        ¬(lowerString s = "mainnet" ∨ s = "1")) ∧
    Network.from_str "Mainnet" = .ok .MAINNET ∧
    Network.from_str "1" = .ok .MAINNET ∧
    Network.from_str "7" = .error (.invalidArgument "7") := by
  obtain ⟨d12, d13, d23⟩ := network_conds_disjoint s
  refine ⟨?_, ?_, ?_, ?_, by decide, by decide, by decide⟩ <;>
    (unfold Network.from_str; split_ifs with h1 h2 h3 <;> simp_all)

/-- C8: `TestLevel.from_str` accepts exactly the case variations of the
seven literal values and returns the matching member, `Permission.from_str`
accepts exactly the three literals with a case-sensitive comparison, and
both fail with `InvalidArgument` on every other string. -/
theorem testlevel_permission_parse_spec (s : String) :
    (∀ v : TestLevel, TestLevel.from_str s = .ok v ↔ lowerString s = v.value) ∧
    (TestLevel.from_str s = .error (.invalidArgument (lowerString s)) ↔
      ∀ v : TestLevel, lowerString s ≠ v.value) ∧
    (∀ p : Permission, Permission.from_str s = .ok p ↔ s = p.value) ∧
    (Permission.from_str s = .error (.invalidArgument s) ↔ ∀ p : Permission, s ≠ p.value) := by
  refine ⟨?_, ?_, ?_, ?_⟩
  · intro v
    unfold TestLevel.from_str
    cases v <;> split_ifs <;> simp_all [TestLevel.value]
  · unfold TestLevel.from_str
    split_ifs with h1 h2 h3 h4 h5 h6 h7
    · exact iff_of_false (by simp) (fun hall => hall .ABI (by simpa [TestLevel.value] using h1))
    · exact iff_of_false (by simp) (fun hall => hall .MINIMAL (by simpa [TestLevel.value] using h2))
    · exact iff_of_false (by simp)
        (fun hall => hall .RECOMMENDED (by simpa [TestLevel.value] using h3))
    · exact iff_of_false (by simp)
        (fun hall => hall .DESIRABLE (by simpa [TestLevel.value] using h4))
    · exact iff_of_false (by simp) (fun hall => hall .ADDON (by simpa [TestLevel.value] using h5))
    · exact iff_of_false (by simp)
        (fun hall => hall .FINGERPRINT (by simpa [TestLevel.value] using h6))
    · exact iff_of_false (by simp) (fun hall => hall .ALL (by simpa [TestLevel.value] using h7))
    · exact iff_of_true rfl (fun v => by cases v <;> simp only [TestLevel.value] <;> assumption)
  · intro p
    unfold Permission.from_str
    cases p <;> split_ifs <;> simp_all [Permission.value]
  · unfold Permission.from_str
    split_ifs with h1 h2 h3
    · exact iff_of_false (by simp) (fun hall => hall .READ (by simpa [Permission.value] using h1))
    · exact iff_of_false (by simp) (fun hall => hall .WRITE (by simpa [Permission.value] using h2))
    · exact iff_of_false (by simp) (fun hall => hall .ADMIN (by simpa [Permission.value] using h3))
    · exact iff_of_true rfl (fun p => by cases p <;> simp only [Permission.value] <;> assumption)

/-- C9: serialization followed by parsing is the identity on every member
of the three enumerations; `Network` serializes to its decimal id string. -/
theorem enum_serialize_parse_roundtrip :
    (∀ v : Network, Network.from_str (Network.toStr v) = .ok v) ∧
    (∀ v : TestLevel, TestLevel.from_str (TestLevel.toStr v) = .ok v) ∧
    (∀ p : Permission, Permission.from_str (Permission.toStr p) = .ok p) := by
  refine ⟨?_, ?_, ?_⟩ <;> intro v <;> cases v <;> decide

/-- C3: `TokenInfo.from_dict` is all-or-nothing: a dictionary whose first
absent required key (in the order id, name, address, symbol, decimals,
totalSupply, network) is `k` decodes to `MissingField k` and no record,
and a dictionary containing all seven keys, extra keys allowed, decodes
to the record whose every field is the dictionary's value verbatim. -/
theorem from_dict_all_or_nothing (d : List (String × String)) :
    (∀ pre k post, requiredAttributes = pre ++ k :: post →
      (∀ a ∈ pre, (dictLookup d a).isSome) → dictLookup d k = none →
      TokenInfo.from_dict d = .error (.missingField k)) ∧
    (∀ i n ad sy de ts ne,
      dictLookup d "id" = some i → dictLookup d "name" = some n →
      dictLookup d "address" = some ad → dictLookup d "symbol" = some sy →
      dictLookup d "decimals" = some de → dictLookup d "totalSupply" = some ts →
      dictLookup d "network" = some ne →
      TokenInfo.from_dict d = .ok ⟨i, n, ad, sy, de, ts, ne⟩) := by
  constructor
  · intro pre k post hattrs hpre hk
    have hfirst : firstMissingAttr requiredAttributes d = some k := by
      rw [hattrs]
      exact firstMissingAttr_append d pre k post hpre hk
    simp [TokenInfo.from_dict, hfirst]
  · intro i n ad sy de ts ne h1 h2 h3 h4 h5 h6 h7
    have hnone : firstMissingAttr requiredAttributes d = none := by
      simp [requiredAttributes, firstMissingAttr, h1, h2, h3, h4, h5, h6, h7]
    simp [TokenInfo.from_dict, hnone, getItem, h1, h2, h3, h4, h5, h6, h7, Bind.bind,
      Except.bind, Pure.pure, Except.pure]

/-- Spec scenario dictionary with all seven required keys. -/
def fullTokenDict : List (String × String) :=
  [("id", "1"), ("name", "Tether"),
   ("address", "0xdAC17F958D2ee523a2206206994597C13D831ec7"), ("symbol", "USDT"),
   ("decimals", "6"), ("totalSupply", "39823192354829095"), ("network", "1")]

/-- Spec scenario dictionary with the `symbol` key removed. -/
def missingSymbolDict : List (String × String) :=
  [("id", "1"), ("name", "Tether"),
   ("address", "0xdAC17F958D2ee523a2206206994597C13D831ec7"),
   ("decimals", "6"), ("totalSupply", "39823192354829095"), ("network", "1")]

/-- Witness for C3 at the spec's concrete scenario: dropping `symbol`
yields `MissingField "symbol"`, the full dictionary decodes verbatim. -/
theorem from_dict_all_or_nothing_witness :
    TokenInfo.from_dict missingSymbolDict = .error (.missingField "symbol") ∧
    TokenInfo.from_dict fullTokenDict =
      .ok ⟨"1", "Tether", "0xdAC17F958D2ee523a2206206994597C13D831ec7", "USDT", "6",
        "39823192354829095", "1"⟩ :=
  ⟨(from_dict_all_or_nothing missingSymbolDict).1 ["id", "name", "address"] "symbol"
      ["decimals", "totalSupply", "network"] rfl (by decide) (by decide),
   (from_dict_all_or_nothing fullTokenDict).2 "1" "Tether"
      "0xdAC17F958D2ee523a2206206994597C13D831ec7" "USDT" "6" "39823192354829095" "1"
      rfl rfl rfl rfl rfl rfl rfl⟩

/-- C1: against a server answering with response `resp`, `execute` on any
supported method classifies the outcome exactly by status code and body:
a status outside 200/201 yields `HttpError` with that status whatever
the body holds, a success status with a JSON-parsable body yields the
parsed payload, a success status with an unparsable body yields
`DecodeError`. -/
theorem execute_classifies_by_status_and_body (client : RestClient) (resp : HttpResponse)
    (method end_point : String) (data : Option (List (String × Json)))
    (parameters : Option (List (String × String)))
    (hm : method = "GET" ∨ method = "POST" ∨ method = "DELETE") :
    ((resp.status_code ≠ 200 ∧ resp.status_code ≠ 201) →
      (client.send_request (fun _ => .ok resp) method end_point data parameters).fst =
        .error (.httpError resp.status_code)) ∧
    (∀ payload, (resp.status_code = 200 ∨ resp.status_code = 201) →
      resp.jsonBody = .ok payload →
      (client.send_request (fun _ => .ok resp) method end_point data parameters).fst =
        .ok payload) ∧
    (∀ cause, (resp.status_code = 200 ∨ resp.status_code = 201) →
      resp.jsonBody = .error cause →
      (client.send_request (fun _ => .ok resp) method end_point data parameters).fst =
        .error (.decodeError cause)) := by
  rcases hm with rfl | rfl | rfl
  · simpa [RestClient.send_request] using handleResponse_ok_fst resp _
  · by_cases hd : dataTruthy data <;>
      simpa [RestClient.send_request, hd] using handleResponse_ok_fst resp _
  · by_cases hd : dataTruthy data <;>
      simpa [RestClient.send_request, hd] using handleResponse_ok_fst resp _

/-- Witness for C1: against a 404 response, a GET execution fails with
`HttpError 404`. -/
theorem execute_classifies_by_status_and_body_witness :
    (RestClient.send_request ⟨"u", "k"⟩ (fun _ => .ok ⟨404, .ok .null⟩) "GET" "e"
      none none).fst = .error (.httpError 404) :=
  (execute_classifies_by_status_and_body ⟨"u", "k"⟩ ⟨404, .ok .null⟩ "GET" "e" none none
    (.inl rfl)).1 (by decide)

/-- C2: a method outside GET, POST, DELETE makes `execute` fail with
`UnsupportedMethod` naming that method, with the transport invoked zero
times. -/
theorem execute_unsupported_method_no_network (client : RestClient) (transport : Transport)
    (method end_point : String) (data : Option (List (String × Json)))
    (parameters : Option (List (String × String)))
    (hm : method ≠ "GET" ∧ method ≠ "POST" ∧ method ≠ "DELETE") :
    client.send_request transport method end_point data parameters =
      (.error (.unsupportedMethod method), []) := by
  obtain ⟨h1, h2, h3⟩ := hm
  simp [RestClient.send_request, h1, h2, h3]

/-- Witness for C2 at the unsupported method "PUT". -/
theorem execute_unsupported_method_no_network_witness :
    RestClient.send_request ⟨"u", "k"⟩ okTransport "PUT" "e" none none =
      (.error (.unsupportedMethod "PUT"), []) :=
  execute_unsupported_method_no_network ⟨"u", "k"⟩ okTransport "PUT" "e" none none
    ⟨by decide, by decide, by decide⟩

/-- C5: a GET execution sends exactly one request, carrying the
descriptor's query parameters and no body, whatever `data` holds. -/
theorem execute_get_query_params_no_body (client : RestClient) (transport : Transport)
    (end_point : String) (data : Option (List (String × Json)))
    (parameters : Option (List (String × String))) :
    (client.send_request transport "GET" end_point data parameters).snd =
      [⟨client.api_url ++ end_point, [("X-API-KEY", client.api_key)], parameters, none⟩] := by
  simp [RestClient.send_request, handleResponse_snd]

/-- Counterexample to C6 as stated: for a POST whose body is present but
empty, the request goes out with no body, although the body is present. -/
theorem execute_post_empty_present_body_not_attached :
    (some ([] : List (String × Json)) ≠ none) ∧
    (RestClient.send_request ⟨"u", "k"⟩ okTransport "POST" "e" (some []) none).snd =
      [⟨"ue", [("X-API-KEY", "k")], none, none⟩] :=
  ⟨by simp, rfl⟩

/-- C6 amended: a POST or DELETE execution sends exactly one request,
whose body is the descriptor's body exactly when that body is present and
non-empty (Python-truthy); an absent or empty body sends no body. -/
theorem execute_body_attached_iff_truthy (client : RestClient) (transport : Transport)
    (end_point : String) (data : Option (List (String × Json)))
    (parameters : Option (List (String × String))) :
    ((client.send_request transport "POST" end_point data parameters).snd =
      [⟨client.api_url ++ end_point, [("X-API-KEY", client.api_key)], none,
        if dataTruthy data then data else none⟩]) ∧
    ((client.send_request transport "DELETE" end_point data parameters).snd =
      [⟨client.api_url ++ end_point, [("X-API-KEY", client.api_key)], none,
        if dataTruthy data then data else none⟩]) := by
  constructor <;>
    (by_cases hd : dataTruthy data <;> simp [RestClient.send_request, hd, handleResponse_snd])

/-- C7: every request that `execute` hands to the transport carries the
single header list whose one entry is `X-API-KEY` bound to the configured
API key. -/
theorem execute_single_auth_header (client : RestClient) (transport : Transport)
    (method end_point : String) (data : Option (List (String × Json)))
    (parameters : Option (List (String × String))) (req : HttpRequest)
    (hreq : req ∈ (client.send_request transport method end_point data parameters).snd) :
    req.headers = [("X-API-KEY", client.api_key)] := by
  simp only [RestClient.send_request] at hreq
  split_ifs at hreq <;>
    simp [handleResponse_snd, List.mem_singleton] at hreq <;> (subst hreq; rfl)

/-- Witness for C7: the one request of a concrete GET execution carries
exactly the configured API key header. -/
theorem execute_single_auth_header_witness :
    HttpRequest.headers ⟨"ue", [("X-API-KEY", "k")], none, none⟩ = [("X-API-KEY", "k")] :=
  execute_single_auth_header ⟨"u", "k"⟩ okTransport "GET" "e" none none
    ⟨"ue", [("X-API-KEY", "k")], none, none⟩ (List.mem_singleton.mpr rfl)

/-- C10: a POST or DELETE whose body is the present-but-empty dictionary
sends its one request with no body, and its whole outcome coincides with
the outcome for an absent body: the two are indistinguishable on the
wire. -/
theorem execute_empty_body_like_absent (client : RestClient) (transport : Transport)
    (end_point : String) (parameters : Option (List (String × String))) :
    ((client.send_request transport "POST" end_point (some []) parameters).snd =
      [⟨client.api_url ++ end_point, [("X-API-KEY", client.api_key)], none, none⟩]) ∧
    (client.send_request transport "POST" end_point (some []) parameters =
      client.send_request transport "POST" end_point none parameters) ∧
    ((client.send_request transport "DELETE" end_point (some []) parameters).snd =
      [⟨client.api_url ++ end_point, [("X-API-KEY", client.api_key)], none, none⟩]) ∧
    (client.send_request transport "DELETE" end_point (some []) parameters =
      client.send_request transport "DELETE" end_point none parameters) := by
  refine ⟨?_, rfl, ?_, rfl⟩ <;> simp [RestClient.send_request, handleResponse_snd, dataTruthy]
